import Mathlib

/-!
Shallow embedding of the WebSocket wrapper (src/WebsocketHandler.ts).

The wrapper is a browser-side class over a platform WebSocket.  We model:
  * JSON values (as handled by JSON.parse / JSON.stringify; numbers are
    modelled as integers),
  * the DOM-backed EventListenerElement (a list of (eventType, callback)
    registrations; the DOM ignores duplicate (type, callback) pairs and
    dispatch invokes every matching registration once, in order),
  * the ListenerRegistry (an insertion-ordered map from listenerID to an
    (action, callback) entry),
  * the WebsocketWrapper state and its methods: the constructor,
    addBaseListeners' open/close/error/message handlers, reconnect,
    removeAllEventListeners, updateConfig, send, addListener and
    removeListener.

Callbacks (JS function references) are modelled by natural-number
identities.  Effects that escape the wrapper (console logging, frames sent
on the socket, timers set or cleared, events dispatched) are returned as an
explicit effect list.  Math.random's ID suffix is an explicit input.
-/

namespace WsWrapper

/-- JSON values.  Numbers are modelled as integers (no claim depends on
    floating-point formatting). -/
inductive Json where
  | null : Json
  | bool (b : Bool) : Json
  | num (n : Int) : Json
  | str (s : String) : Json
  | arr (xs : List Json) : Json
  | obj (fields : List (String × Json)) : Json

/-- JS truthiness on a JSON value (falsy: null, false, 0, empty string). -/
def jsTruthy : Json → Bool
  | .null => false
  | .bool b => b
  | .num n => n != 0
  | .str s => s != ""
  | .arr _ => true
  | .obj _ => true

/-- Property access `j[key]` on a parsed JSON value: defined on objects,
    `undefined` (none) otherwise. -/
def jGet (j : Json) (key : String) : Option Json :=
  match j with
  | .obj fs => List.lookup key fs
  | _ => none

def quoteChar (c : Char) : String :=
  if c = '"' then "\\\"" else if c = '\\' then "\\\\" else String.singleton c

def quoteString (s : String) : String :=
  "\"" ++ String.join (s.data.map quoteChar) ++ "\""

mutual
/-- JSON.stringify. -/
def jsonStringify : Json → String
  | .null => "null"
  | .bool b => cond b "true" "false"
  | .num n => toString n
  | .str s => quoteString s
  | .arr xs => "[" ++ stringifyArr xs ++ "]"
  | .obj fs => "\x7b" ++ stringifyObj fs ++ "\x7d"

def stringifyArr : List Json → String
  | [] => ""
  | [x] => jsonStringify x
  | x :: y :: xs => jsonStringify x ++ "," ++ stringifyArr (y :: xs)

def stringifyObj : List (String × Json) → String
  | [] => ""
  | [(k, v)] => quoteString k ++ ":" ++ jsonStringify v
  | (k, v) :: f :: fs => quoteString k ++ ":" ++ jsonStringify v ++ "," ++ stringifyObj (f :: fs)
end

/-! ### JSON.parse

A recursive-descent parser over the character list, fuelled by the input
length.  It accepts the JSON grammar with integer numeric literals and the
single-character string escapes; a failure models the SyntaxError that
JSON.parse throws. -/

def skipWs : List Char → List Char
  | c :: cs => if c = ' ' ∨ c = '\n' ∨ c = '\t' ∨ c = '\r' then skipWs cs else c :: cs
  | [] => []

def isDigitCh (c : Char) : Bool := '0' ≤ c ∧ c ≤ '9'

def digitsToNat (acc : Nat) : List Char → Nat × List Char
  | c :: cs => if isDigitCh c then digitsToNat (acc * 10 + (c.toNat - '0'.toNat)) cs else (acc, c :: cs)
  | [] => (acc, [])

def parseNum : List Char → Option (Json × List Char)
  | '-' :: c :: cs =>
      if isDigitCh c then
        let (n, rest) := digitsToNat (c.toNat - '0'.toNat) cs
        some (.num (-(n : Int)), rest)
      else none
  | c :: cs =>
      if isDigitCh c then
        let (n, rest) := digitsToNat (c.toNat - '0'.toNat) cs
        some (.num (n : Int), rest)
      else none
  | [] => none

def parseStringBody : List Char → Option (String × List Char)
  | '"' :: cs => some ("", cs)
  | '\\' :: e :: cs =>
      (fun c => (parseStringBody cs).map fun p => (String.singleton c ++ p.1, p.2)) <$>
        (if e = '"' then some '"'
         else if e = '\\' then some '\\'
         else if e = '/' then some '/'
         else if e = 'n' then some '\n'
         else if e = 't' then some '\t'
         else if e = 'r' then some '\r'
         else none) |>.bind id
  | c :: cs => (parseStringBody cs).map fun p => (String.singleton c ++ p.1, p.2)
  | [] => none

mutual
def parseValue : Nat → List Char → Option (Json × List Char)
  | 0, _ => none
  | fuel + 1, cs =>
    match skipWs cs with
    | 'n' :: 'u' :: 'l' :: 'l' :: rest => some (.null, rest)
    | 't' :: 'r' :: 'u' :: 'e' :: rest => some (.bool true, rest)
    | 'f' :: 'a' :: 'l' :: 's' :: 'e' :: rest => some (.bool false, rest)
    | '"' :: rest => (parseStringBody rest).map fun p => (.str p.1, p.2)
    | '[' :: rest =>
        (match skipWs rest with
         | ']' :: rest2 => some (.arr [], rest2)
         | rest2 => (parseItems fuel rest2).map fun p => (.arr p.1, p.2))
    | '\x7b' :: rest =>
        (match skipWs rest with
         | '\x7d' :: rest2 => some (.obj [], rest2)
         | rest2 => (parseFields fuel rest2).map fun p => (.obj p.1, p.2))
    | other => parseNum other

/-- Items of a non-empty array: value, then a comma and more items or the
    closing bracket. -/
def parseItems : Nat → List Char → Option (List Json × List Char)
  | 0, _ => none
  | fuel + 1, cs =>
    match parseValue fuel cs with
    | none => none
    | some (v, rest) =>
        match skipWs rest with
        | ']' :: rest2 => some ([v], rest2)
        | ',' :: rest2 => (parseItems fuel rest2).map fun p => (v :: p.1, p.2)
        | _ => none

/-- Fields of a non-empty object: quoted key, colon, value, then a comma and
    more fields or the closing brace. -/
def parseFields : Nat → List Char → Option (List (String × Json) × List Char)
  | 0, _ => none
  | fuel + 1, cs =>
    match skipWs cs with
    | '"' :: rest =>
        (match parseStringBody rest with
         | none => none
         | some (k, rest2) =>
             match skipWs rest2 with
             | ':' :: rest3 =>
                 (match parseValue fuel rest3 with
                  | none => none
                  | some (v, rest4) =>
                      match skipWs rest4 with
                      | '\x7d' :: rest5 => some ([(k, v)], rest5)
                      | ',' :: rest5 => (parseFields fuel rest5).map fun p => ((k, v) :: p.1, p.2)
                      | _ => none)
             | _ => none)
    | _ => none
end

/-- JSON.parse: parse one value and require only whitespace after it;
    `none` models the SyntaxError thrown on malformed input. -/
def jsonParse (s : String) : Option Json :=
  match parseValue (s.length + 1) s.data with
  | some (v, rest) => if skipWs rest = [] then some v else none
  | none => none

/-! ### EventMap keys and the event-relay element -/

/-- The keys of EventMap, the only actions addListener accepts. -/
inductive EventKey where
  | connect | disconnect | error | message
deriving DecidableEq, Repr

def eventKeyStr : EventKey → String
  | .connect => "connect"
  | .disconnect => "disconnect"
  | .error => "error"
  | .message => "message"

/-- A callback is a JS function reference, modelled by its identity. -/
abbrev Callback := Nat

/-- EventListenerElement: a detached DOM element used as an event relay.
    Its listener list holds (eventType, callback) registrations. -/
structure EventListenerElement where
  listeners : List (String × Callback)
deriving DecidableEq, Repr

def EventListenerElement.new : EventListenerElement := ⟨[]⟩

/-- DOM addEventListener: appends the registration unless the identical
    (type, callback) pair is already registered. -/
def EventListenerElement.addEventListener (e : EventListenerElement) (action : String)
    (callback : Callback) : EventListenerElement :=
  if (action, callback) ∈ e.listeners then e else ⟨e.listeners ++ [(action, callback)]⟩

/-- DOM removeEventListener: drops the (type, callback) registration. -/
def EventListenerElement.removeEventListener (e : EventListenerElement) (action : String)
    (callback : Callback) : EventListenerElement :=
  ⟨e.listeners.filter fun p => decide (p ≠ (action, callback))⟩

/-- DOM dispatchEvent: every listener registered for the event's type is
    invoked once, in registration order; the invoked callbacks are returned. -/
def EventListenerElement.dispatchEvent (e : EventListenerElement) (eventType : String) :
    List Callback :=
  (e.listeners.filter fun p => decide (p.1 = eventType)).map (·.2)

/-! ### ListenerRegistry -/

/-- A registry entry: the action and callback recorded for a listenerID. -/
structure RegEntry where
  action : EventKey
  callback : Callback
deriving DecidableEq, Repr

/-- ListenerRegistry: a Map from listenerID to an entry, modelled as an
    insertion-ordered association list with unique keys. -/
structure ListenerRegistry where
  listeners : List (String × RegEntry)
deriving DecidableEq, Repr

def ListenerRegistry.new : ListenerRegistry := ⟨[]⟩

def ListenerRegistry.get (r : ListenerRegistry) (listenerID : String) : Option RegEntry :=
  List.lookup listenerID r.listeners

/-- Map.set: replaces the entry in place when the key exists, appends
    otherwise. -/
def ListenerRegistry.set (r : ListenerRegistry) (listenerID : String) (ent : RegEntry) :
    ListenerRegistry :=
  if (r.get listenerID).isSome then
    ⟨r.listeners.map fun p => if p.1 = listenerID then (listenerID, ent) else p⟩
  else ⟨r.listeners ++ [(listenerID, ent)]⟩

/-- Map.delete: removes the entry and reports whether it was present. -/
def ListenerRegistry.delete (r : ListenerRegistry) (listenerID : String) :
    ListenerRegistry × Bool :=
  if (r.get listenerID).isSome then
    (⟨r.listeners.filter fun p => decide (p.1 ≠ listenerID)⟩, true)
  else (r, false)

/-! ### Configuration records and the wrapper state -/

structure WebSocketConfig where
  url : String
  queryStringParameters : String
deriving DecidableEq, Repr

/-- The constructor's first argument: queryStringParameters is optional. -/
structure WebSocketParameters where
  url : String
  queryStringParameters : Option String
deriving DecidableEq, Repr

structure KeepAliveConfig where
  shouldSendKeepAlive : Bool
  keepAliveIntervalTimeMs : Int
deriving DecidableEq, Repr

/-- The wrapper's keepAliveConfig field: KeepAliveConfig plus the optional
    interval handle returned by setInterval. -/
structure KeepAliveConfigW where
  shouldSendKeepAlive : Bool
  keepAliveIntervalTimeMs : Int
  keepAliveInterval : Option Nat
deriving DecidableEq, Repr

structure ReconnectionConfig where
  reconnectOnDisconnect : Bool
  reconnectionTimeoutTimeMs : Int
deriving DecidableEq, Repr

/-- readyState constants of the platform WebSocket. -/
def wsCONNECTING : Nat := 0
def wsOPEN : Nat := 1
def wsCLOSING : Nat := 2
def wsCLOSED : Nat := 3

/-- The platform WebSocket object: the URL string passed to its constructor
    and its current readyState. -/
structure WebSocketObj where
  urlString : String
  readyState : Nat
deriving DecidableEq, Repr

/-- `new WebSocket(urlString)`: a fresh connection in the CONNECTING state. -/
def newWebSocket (urlString : String) : WebSocketObj :=
  ⟨urlString, wsCONNECTING⟩

/-- The mutable fields of a WebsocketWrapper instance. -/
structure WrapperState where
  websocket : WebSocketObj
  websocketConfig : WebSocketConfig
  keepAliveConfig : KeepAliveConfigW
  reconnectionConfig : ReconnectionConfig
  listenerRegistry : ListenerRegistry
  eventListenerElement : EventListenerElement
deriving DecidableEq, Repr

/-- Observable effects of the wrapper's methods and handlers: events
    dispatched on the relay element (with the callbacks they reach), frames
    sent on the socket, console output, and timer operations. -/
inductive Effect where
  | dispatched (eventType : String) (targets : List Callback)
  | sentFrame (frame : String)
  | warned (msg : String)
  | loggedError (msg : String)
  | setKeepAliveInterval (intervalMs : Int) (handle : Nat)
  | clearedInterval (handle : Option Nat)
  | scheduledReconnect (delayMs : Int)
deriving DecidableEq, Repr

/-! ### WebsocketWrapper methods -/

namespace WebsocketWrapper

/-- The constructor: per-field defaults for the optional arguments, then
    `new WebSocket(url ++ "?" ++ queryStringParameters)`. -/
def construct (websocketParameters : WebSocketParameters)
    (keepAliveConfig : Option KeepAliveConfig)
    (reconnectionConfig : Option ReconnectionConfig) : WrapperState :=
  let url := websocketParameters.url
  let queryStringParameters := websocketParameters.queryStringParameters.getD ""
  let shouldSendKeepAlive := (keepAliveConfig.map (·.shouldSendKeepAlive)).getD false
  let keepAliveIntervalTimeMs := (keepAliveConfig.map (·.keepAliveIntervalTimeMs)).getD (9 * 60 * 1000)
  let reconnectOnDisconnect := (reconnectionConfig.map (·.reconnectOnDisconnect)).getD false
  let reconnectionTimeoutTimeMs := (reconnectionConfig.map (·.reconnectionTimeoutTimeMs)).getD 5000
  { websocket := newWebSocket (url ++ "?" ++ queryStringParameters)
    websocketConfig := { url := url, queryStringParameters := queryStringParameters }
    keepAliveConfig :=
      { shouldSendKeepAlive := shouldSendKeepAlive
        keepAliveIntervalTimeMs := keepAliveIntervalTimeMs
        keepAliveInterval := none }
    reconnectionConfig :=
      { reconnectOnDisconnect := reconnectOnDisconnect
        reconnectionTimeoutTimeMs := reconnectionTimeoutTimeMs }
    listenerRegistry := ListenerRegistry.new
    eventListenerElement := EventListenerElement.new }

/-- The open handler installed by addBaseListeners: dispatch "connect" and,
    when shouldSendKeepAlive, start the keep-alive interval (timerId is the
    handle setInterval returns). -/
def handleOpen (s : WrapperState) (timerId : Nat) : WrapperState × List Effect :=
  let connectEff := Effect.dispatched "connect" (s.eventListenerElement.dispatchEvent "connect")
  if s.keepAliveConfig.shouldSendKeepAlive then
    ({ s with keepAliveConfig := { s.keepAliveConfig with keepAliveInterval := some timerId } },
     [connectEff, Effect.setKeepAliveInterval s.keepAliveConfig.keepAliveIntervalTimeMs timerId])
  else (s, [connectEff])

/-- The close handler installed by addBaseListeners: dispatch "disconnect",
    clear the keep-alive interval, and schedule a reconnect after
    reconnectionTimeoutTimeMs when reconnectOnDisconnect is set.  The
    wrapper's fields are not modified by the handler itself. -/
def handleClose (s : WrapperState) : List Effect :=
  [Effect.dispatched "disconnect" (s.eventListenerElement.dispatchEvent "disconnect"),
   Effect.clearedInterval s.keepAliveConfig.keepAliveInterval] ++
  (if s.reconnectionConfig.reconnectOnDisconnect then
    [Effect.scheduledReconnect s.reconnectionConfig.reconnectionTimeoutTimeMs]
  else [])

/-- The error handler installed by addBaseListeners. -/
def handleError (s : WrapperState) : List Effect :=
  [Effect.dispatched "error" (s.eventListenerElement.dispatchEvent "error")]

/-- JS string coercion of the parsed message's action field, as applied by
    the CustomEvent constructor (an absent field is undefined). -/
def actionTypeOf (message : Json) : String :=
  match jGet message "action" with
  | none => "undefined"
  | some (.str s) => s
  | some .null => "null"
  | some (.bool b) => cond b "true" "false"
  | some (.num n) => toString n
  | some (.arr _) => ""
  | some (.obj _) => "[object Object]"

/-- The message handler installed by addBaseListeners: JSON.parse the frame
    (its SyntaxError propagates, there is no try/catch) and dispatch a
    CustomEvent named by the message's action field. -/
def handleMessage (s : WrapperState) (rawData : String) : Except String (List Effect) :=
  match jsonParse rawData with
  | none => Except.error "SyntaxError: Unexpected token in JSON"
  | some message =>
      let ty := actionTypeOf message
      Except.ok [Effect.dispatched ty (s.eventListenerElement.dispatchEvent ty)]

/-- removeAllEventListeners: walk the registry's entries and remove each
    recorded (action, callback) pair from the relay element. -/
def removeAllEventListeners (registry : ListenerRegistry) (element : EventListenerElement) :
    EventListenerElement :=
  registry.listeners.foldl
    (fun e p => e.removeEventListener (eventKeyStr p.2.action) p.2.callback) element

/-- reconnect: strip all registered listeners off the old relay element,
    install a fresh element and registry, and open a new connection from the
    current websocketConfig. -/
def reconnect (s : WrapperState) : WrapperState :=
  let _stripped := removeAllEventListeners s.listenerRegistry s.eventListenerElement
  { s with
    eventListenerElement := EventListenerElement.new
    listenerRegistry := ListenerRegistry.new
    websocket :=
      newWebSocket (s.websocketConfig.url ++ "?" ++ s.websocketConfig.queryStringParameters) }

/-- A runtime value of `Partial ConfigMapping K`: every field optional, a
    present field carrying its new value. -/
structure PartialConfig where
  url : Option String
  queryStringParameters : Option String
  shouldSendKeepAlive : Option Bool
  keepAliveIntervalTimeMs : Option Int
  reconnectOnDisconnect : Option Bool
  reconnectionTimeoutTimeMs : Option Int
deriving DecidableEq, Repr

/-- A PartialConfig with no field present. -/
def emptyPartial : PartialConfig := ⟨none, none, none, none, none, none⟩

/-- The value updateConfig returns: the merged configuration of the matched
    branch (undefined, i.e. none, on an invalid configType). -/
inductive UpdatedConfig where
  | websocket (c : WebSocketConfig)
  | keepAlive (c : KeepAliveConfigW)
  | reconnection (c : ReconnectionConfig)
deriving DecidableEq, Repr

/-- updateConfig: switch on configType, spread-merge the stored config with
    newConfig, then reconnect when triggerReconnect is set; the default
    branch logs and leaves updatedConfig undefined. -/
def updateConfig (s : WrapperState) (configType : String) (newConfig : PartialConfig)
    (triggerReconnect : Bool) : WrapperState × Option UpdatedConfig × List Effect :=
  let step : WrapperState × Option UpdatedConfig × List Effect :=
    if configType = "websocket" then
      let merged : WebSocketConfig :=
        { url := newConfig.url.getD s.websocketConfig.url
          queryStringParameters :=
            newConfig.queryStringParameters.getD s.websocketConfig.queryStringParameters }
      ({ s with websocketConfig := merged }, some (.websocket merged), [])
    else if configType = "keepAlive" then
      let merged : KeepAliveConfigW :=
        { shouldSendKeepAlive :=
            newConfig.shouldSendKeepAlive.getD s.keepAliveConfig.shouldSendKeepAlive
          keepAliveIntervalTimeMs :=
            newConfig.keepAliveIntervalTimeMs.getD s.keepAliveConfig.keepAliveIntervalTimeMs
          keepAliveInterval := s.keepAliveConfig.keepAliveInterval }
      ({ s with keepAliveConfig := merged }, some (.keepAlive merged), [])
    else if configType = "reconnection" then
      let merged : ReconnectionConfig :=
        { reconnectOnDisconnect :=
            newConfig.reconnectOnDisconnect.getD s.reconnectionConfig.reconnectOnDisconnect
          reconnectionTimeoutTimeMs :=
            newConfig.reconnectionTimeoutTimeMs.getD s.reconnectionConfig.reconnectionTimeoutTimeMs }
      ({ s with reconnectionConfig := merged }, some (.reconnection merged), [])
    else
      (s, none, [Effect.loggedError ("Invalid ConfigType " ++ configType)])
  if triggerReconnect then (reconnect step.1, step.2.1, step.2.2) else step

/-- send: warn and return when the socket is not OPEN; otherwise stringify
    `data ? \x7baction, data\x7d : \x7baction\x7d` and send the frame.  The
    data field is included only when the data argument is truthy. -/
def sendMessageObj (action : String) (data : Option Json) : Json :=
  match data with
  | some d => if jsTruthy d then .obj [("action", .str action), ("data", d)]
              else .obj [("action", .str action)]
  | none => .obj [("action", .str action)]

def send (s : WrapperState) (action : String) (data : Option Json) :
    WrapperState × List Effect :=
  if s.websocket.readyState ≠ wsOPEN then
    (s, [Effect.warned ("A send event for " ++ action ++
          " was received while WebSocket is in an incompatible readyState: " ++
          toString s.websocket.readyState)])
  else
    (s, [Effect.sentFrame (jsonStringify (sendMessageObj action data))])

/-- addListener: register the callback on the relay element, build the ID
    "listener-" ++ the Math.random suffix, record the entry in the registry,
    and return the ID. -/
def addListener (s : WrapperState) (action : EventKey) (callback : Callback)
    (randSuffix : String) : WrapperState × String :=
  let element := s.eventListenerElement.addEventListener (eventKeyStr action) callback
  let listenerID := "listener-" ++ randSuffix
  let registry := s.listenerRegistry.set listenerID ⟨action, callback⟩
  ({ s with eventListenerElement := element, listenerRegistry := registry }, listenerID)

/-- removeListener: look the ID up; absent (or a falsy action/callback, which
    cannot arise for EventMap keys) returns false; otherwise remove the
    registration from the element, delete the registry entry and return the
    delete result. -/
def removeListener (s : WrapperState) (listenerID : String) : WrapperState × Bool :=
  match s.listenerRegistry.get listenerID with
  | none => (s, false)
  | some ent =>
      if eventKeyStr ent.action = "" then (s, false)
      else
        let element :=
          s.eventListenerElement.removeEventListener (eventKeyStr ent.action) ent.callback
        let (registry, deleted) := s.listenerRegistry.delete listenerID
        ({ s with eventListenerElement := element, listenerRegistry := registry }, deleted)

end WebsocketWrapper

/-- A concrete wrapper whose socket has reached the OPEN state (as after the
    platform fires the open event). -/
def openWrapper : WrapperState :=
  let s := WebsocketWrapper.construct ⟨"ws://h", none⟩ none none
  { s with websocket := { s.websocket with readyState := wsOPEN } }

/-! ### Theorems -/

open WebsocketWrapper

/-- C10: with the optional constructor arguments omitted,
    queryStringParameters defaults to "", shouldSendKeepAlive to false,
    keepAliveIntervalTimeMs to 540000, reconnectOnDisconnect to false and
    reconnectionTimeoutTimeMs to 5000; for every construction the connection
    URL is url ++ "?" ++ queryStringParameters, the "?" appearing even when
    the query string is empty. -/
theorem construct_defaults (u : String) (p : WebSocketParameters)
    (ka : Option KeepAliveConfig) (rc : Option ReconnectionConfig) :
    (construct ⟨u, none⟩ none none).websocketConfig.queryStringParameters = "" ∧
    (construct ⟨u, none⟩ none none).keepAliveConfig.shouldSendKeepAlive = false ∧
    (construct ⟨u, none⟩ none none).keepAliveConfig.keepAliveIntervalTimeMs = 540000 ∧
    (construct ⟨u, none⟩ none none).reconnectionConfig.reconnectOnDisconnect = false ∧
    (construct ⟨u, none⟩ none none).reconnectionConfig.reconnectionTimeoutTimeMs = 5000 ∧
    (construct ⟨u, none⟩ none none).websocket.urlString = u ++ "?" ∧
    (construct p ka rc).websocket.urlString =
      p.url ++ "?" ++ p.queryStringParameters.getD "" := by
  refine ⟨rfl, rfl, rfl, rfl, rfl, ?_, rfl⟩
  show u ++ "?" ++ "" = u ++ "?"
  simp

/-- C4: sending while the socket's readyState is not OPEN emits exactly one
    console warning, transmits no frame, and leaves the wrapper state
    untouched (the method returns normally, with no retry effect). -/
theorem send_not_open (s : WrapperState) (action : String) (data : Option Json)
    (h : s.websocket.readyState ≠ wsOPEN) :
    (send s action data).1 = s ∧
    (∃ msg, (send s action data).2 = [Effect.warned msg]) ∧
    ∀ frame, Effect.sentFrame frame ∉ (send s action data).2 := by
  unfold send
  rw [if_pos h]
  refine ⟨rfl, ⟨_, rfl⟩, ?_⟩
  intro frame hmem
  simp at hmem

/-- Witness for send_not_open at a freshly constructed wrapper, whose socket
    is still CONNECTING. -/
theorem send_not_open_witness :
    (send (construct ⟨"ws://h", none⟩ none none) "ping" none).1 =
        construct ⟨"ws://h", none⟩ none none ∧
    (∃ msg, (send (construct ⟨"ws://h", none⟩ none none) "ping" none).2 =
        [Effect.warned msg]) ∧
    ∀ frame,
      Effect.sentFrame frame ∉ (send (construct ⟨"ws://h", none⟩ none none) "ping" none).2 :=
  send_not_open (construct ⟨"ws://h", none⟩ none none) "ping" none (by decide)

/-- C7 counterexample: on the non-JSON payload "nope" the message handler
    does not swallow the parse failure — it throws (the SyntaxError of
    JSON.parse propagates, there being no try/catch), refuting the claim
    that no exception escapes. -/
theorem handleMessage_throws_cex :
    handleMessage (construct ⟨"ws://h", none⟩ none none) "nope" =
      Except.error "SyntaxError: Unexpected token in JSON" := rfl

/-- C7 amended: on every payload JSON.parse rejects, the message handler
    propagates the SyntaxError (no try/catch) and dispatches no event. -/
theorem handleMessage_invalid_json_throws (s : WrapperState) (raw : String)
    (h : jsonParse raw = none) :
    handleMessage s raw = Except.error "SyntaxError: Unexpected token in JSON" ∧
    ∀ effs, handleMessage s raw ≠ Except.ok effs := by
  unfold handleMessage
  rw [h]
  exact ⟨rfl, fun effs hc => by simp at hc⟩

/-- Witness for handleMessage_invalid_json_throws on the payload "not json". -/
theorem handleMessage_invalid_json_throws_witness :
    handleMessage (construct ⟨"ws://h", none⟩ none none) "not json" =
      Except.error "SyntaxError: Unexpected token in JSON" ∧
    ∀ effs,
      handleMessage (construct ⟨"ws://h", none⟩ none none) "not json" ≠ Except.ok effs :=
  handleMessage_invalid_json_throws (construct ⟨"ws://h", none⟩ none none) "not json" rfl

/-- C8 counterexample: with the socket OPEN and the supplied (but falsy)
    data argument false, the transmitted frame serializes an object WITHOUT
    a data field — refuting the claim that the data field is present exactly
    when a data argument was supplied. -/
theorem send_falsy_data_cex :
    send openWrapper "ping" (some (Json.bool false)) =
      (openWrapper,
       [Effect.sentFrame (jsonStringify (Json.obj [("action", Json.str "ping")]))]) ∧
    jsonStringify (Json.obj [("action", Json.str "ping")]) ≠
      jsonStringify (Json.obj [("action", Json.str "ping"), ("data", Json.bool false)]) :=
  ⟨rfl, by decide⟩

lemma sendMessageObj_none (action : String) :
    sendMessageObj action none = Json.obj [("action", Json.str action)] := rfl

lemma sendMessageObj_truthy (action : String) (d : Json) (h : jsTruthy d = true) :
    sendMessageObj action (some d) =
      Json.obj [("action", Json.str action), ("data", d)] := by
  simp [sendMessageObj, h]

lemma sendMessageObj_falsy (action : String) (d : Json) (h : jsTruthy d = false) :
    sendMessageObj action (some d) = Json.obj [("action", Json.str action)] := by
  simp [sendMessageObj, h]

/-- C8 amended: with the socket OPEN, send transmits the JSON serialization
    of an object whose action field is the action argument; the data field
    equals the data argument when that argument is supplied and truthy, and
    is omitted when data is absent or falsy. -/
theorem send_frame_format (s : WrapperState) (action : String) (data : Option Json)
    (hopen : s.websocket.readyState = wsOPEN) :
    (send s action data).1 = s ∧
    (send s action data).2 = [Effect.sentFrame (jsonStringify (sendMessageObj action data))] ∧
    jGet (sendMessageObj action data) "action" = some (Json.str action) ∧
    (∀ d, data = some d → jsTruthy d = true →
        jGet (sendMessageObj action data) "data" = some d) ∧
    ((data = none ∨ ∃ d, data = some d ∧ jsTruthy d = false) →
        jGet (sendMessageObj action data) "data" = none) := by
  have hsend : send s action data =
      (s, [Effect.sentFrame (jsonStringify (sendMessageObj action data))]) := by
    unfold send
    rw [if_neg (by simp [hopen])]
  refine ⟨by rw [hsend], by rw [hsend], ?_, ?_, ?_⟩
  · cases data with
    | none => rfl
    | some d =>
        rcases hb : jsTruthy d with _ | _
        · rw [sendMessageObj_falsy _ _ hb]; rfl
        · rw [sendMessageObj_truthy _ _ hb]; rfl
  · intro d hd htr
    subst hd
    rw [sendMessageObj_truthy _ _ htr]
    rfl
  · intro hcase
    rcases hcase with hnone | ⟨d, hd, hfalse⟩
    · subst hnone; rfl
    · subst hd
      rw [sendMessageObj_falsy _ _ hfalse]
      rfl

/-- Witness for send_frame_format at openWrapper with a truthy data value. -/
theorem send_frame_format_witness :
    (send openWrapper "ping" (some (Json.num 3))).1 = openWrapper ∧
    (send openWrapper "ping" (some (Json.num 3))).2 =
      [Effect.sentFrame (jsonStringify (sendMessageObj "ping" (some (Json.num 3))))] ∧
    jGet (sendMessageObj "ping" (some (Json.num 3))) "action" = some (Json.str "ping") ∧
    (∀ d, some (Json.num 3) = some d → jsTruthy d = true →
        jGet (sendMessageObj "ping" (some (Json.num 3))) "data" = some d) ∧
    ((some (Json.num 3) = none ∨
        ∃ d, some (Json.num 3) = some d ∧ jsTruthy d = false) →
      jGet (sendMessageObj "ping" (some (Json.num 3))) "data" = none) :=
  send_frame_format openWrapper "ping" (some (Json.num 3)) rfl

/-- C6: the close handler dispatches "disconnect" on the relay element and
    clears the keep-alive interval; it schedules a reconnect if and only if
    reconnectOnDisconnect is set, exactly once, and every scheduled reconnect
    uses the single configured delay reconnectionTimeoutTimeMs (no backoff
    growth); running the scheduled reconnect establishes a new connection
    from the current websocketConfig. -/
theorem handleClose_spec (s : WrapperState) :
    Effect.dispatched "disconnect" (s.eventListenerElement.dispatchEvent "disconnect") ∈
      handleClose s ∧
    Effect.clearedInterval s.keepAliveConfig.keepAliveInterval ∈ handleClose s ∧
    (List.countP
        (fun e => match e with | Effect.scheduledReconnect _ => true | _ => false)
        (handleClose s) =
      if s.reconnectionConfig.reconnectOnDisconnect then 1 else 0) ∧
    (∀ d, Effect.scheduledReconnect d ∈ handleClose s →
        d = s.reconnectionConfig.reconnectionTimeoutTimeMs) ∧
    (reconnect s).websocket.urlString =
      s.websocketConfig.url ++ "?" ++ s.websocketConfig.queryStringParameters ∧
    (reconnect s).websocket.readyState = wsCONNECTING := by
  refine ⟨?_, ?_, ?_, ?_, rfl, rfl⟩
  · rcases hb : s.reconnectionConfig.reconnectOnDisconnect with _ | _ <;>
      simp [handleClose, hb]
  · rcases hb : s.reconnectionConfig.reconnectOnDisconnect with _ | _ <;>
      simp [handleClose, hb]
  · rcases hb : s.reconnectionConfig.reconnectOnDisconnect with _ | _ <;>
      simp [handleClose, hb, List.countP_cons]
  · intro d hmem
    rcases hb : s.reconnectionConfig.reconnectOnDisconnect with _ | _ <;>
      simp [handleClose, hb] at hmem
    exact hmem

/-- Witness for handleClose_spec at a wrapper constructed with
    reconnectOnDisconnect set. -/
theorem handleClose_spec_witness :
    (let w := construct ⟨"ws://h", some "a=1"⟩ none (some ⟨true, 250⟩)
     Effect.dispatched "disconnect" (w.eventListenerElement.dispatchEvent "disconnect") ∈
        handleClose w ∧
     Effect.clearedInterval w.keepAliveConfig.keepAliveInterval ∈ handleClose w ∧
     (List.countP
        (fun e => match e with | Effect.scheduledReconnect _ => true | _ => false)
        (handleClose w) =
       if w.reconnectionConfig.reconnectOnDisconnect then 1 else 0) ∧
     (∀ d, Effect.scheduledReconnect d ∈ handleClose w →
        d = w.reconnectionConfig.reconnectionTimeoutTimeMs) ∧
     (reconnect w).websocket.urlString =
        w.websocketConfig.url ++ "?" ++ w.websocketConfig.queryStringParameters ∧
     (reconnect w).websocket.readyState = wsCONNECTING) :=
  handleClose_spec (construct ⟨"ws://h", some "a=1"⟩ none (some ⟨true, 250⟩))

/-- C9: on a configType outside websocket/keepAlive/reconnection,
    updateConfig leaves all three stored configurations unchanged, logs an
    error, returns undefined — and when triggerReconnect is set it still
    tears down (fresh empty registry and relay element) and opens a new
    connection from the unchanged websocketConfig. -/
theorem updateConfig_invalid (s : WrapperState) (ct : String) (nc : PartialConfig)
    (tr : Bool) (h1 : ct ≠ "websocket") (h2 : ct ≠ "keepAlive") (h3 : ct ≠ "reconnection") :
    (updateConfig s ct nc tr).1.websocketConfig = s.websocketConfig ∧
    (updateConfig s ct nc tr).1.keepAliveConfig = s.keepAliveConfig ∧
    (updateConfig s ct nc tr).1.reconnectionConfig = s.reconnectionConfig ∧
    (updateConfig s ct nc tr).2.1 = none ∧
    Effect.loggedError ("Invalid ConfigType " ++ ct) ∈ (updateConfig s ct nc tr).2.2 ∧
    (tr = true →
      (updateConfig s ct nc tr).1.listenerRegistry = ListenerRegistry.new ∧
      (∀ ty, (updateConfig s ct nc tr).1.eventListenerElement.dispatchEvent ty = []) ∧
      (updateConfig s ct nc tr).1.websocket.urlString =
        s.websocketConfig.url ++ "?" ++ s.websocketConfig.queryStringParameters) := by
  have hstep : updateConfig s ct nc tr =
      (if tr then reconnect s else s, none,
        [Effect.loggedError ("Invalid ConfigType " ++ ct)]) := by
    unfold updateConfig
    rw [if_neg h1, if_neg h2, if_neg h3]
    cases tr <;> rfl
  rw [hstep]
  cases tr
  · refine ⟨rfl, rfl, rfl, rfl, by simp, ?_⟩
    intro htr
    simp at htr
  · exact ⟨rfl, rfl, rfl, rfl, by simp, fun _ => ⟨rfl, fun ty => rfl, rfl⟩⟩

/-- Witness for updateConfig_invalid at the configType "bogus" with
    triggerReconnect set. -/
theorem updateConfig_invalid_witness :
    (let w := openWrapper
     (updateConfig w "bogus" emptyPartial true).1.websocketConfig = w.websocketConfig ∧
     (updateConfig w "bogus" emptyPartial true).1.keepAliveConfig = w.keepAliveConfig ∧
     (updateConfig w "bogus" emptyPartial true).1.reconnectionConfig = w.reconnectionConfig ∧
     (updateConfig w "bogus" emptyPartial true).2.1 = none ∧
     Effect.loggedError ("Invalid ConfigType " ++ "bogus") ∈
        (updateConfig w "bogus" emptyPartial true).2.2 ∧
     (true = true →
        (updateConfig w "bogus" emptyPartial true).1.listenerRegistry = ListenerRegistry.new ∧
        (∀ ty, (updateConfig w "bogus" emptyPartial true).1.eventListenerElement.dispatchEvent
            ty = []) ∧
        (updateConfig w "bogus" emptyPartial true).1.websocket.urlString =
          w.websocketConfig.url ++ "?" ++ w.websocketConfig.queryStringParameters)) :=
  updateConfig_invalid openWrapper "bogus" emptyPartial true
    (by decide) (by decide) (by decide)

section ListenerLemmas

/-- Removing a registration never leaves the removed pair behind. -/
lemma notMem_removeEventListener (e : EventListenerElement) (k : String) (c : Callback) :
    (k, c) ∉ (e.removeEventListener k c).listeners := by
  intro hmem
  have h := List.mem_filter.1 hmem
  simp at h

/-- Removing one registration adds nothing. -/
lemma mem_of_mem_removeEventListener (e : EventListenerElement) (k : String) (c : Callback)
    (x : String × Callback) (hx : x ∈ (e.removeEventListener k c).listeners) :
    x ∈ e.listeners :=
  (List.mem_filter.1 hx).1

/-- The removal pass over a registry entry list adds nothing to the element. -/
lemma foldl_remove_preserves (l : List (String × RegEntry)) (e : EventListenerElement)
    (x : String × Callback) (hx : x ∉ e.listeners) :
    x ∉ (l.foldl
      (fun e p => e.removeEventListener (eventKeyStr p.2.action) p.2.callback) e).listeners := by
  induction l generalizing e with
  | nil => exact hx
  | cons q t ih =>
      exact ih _ fun hmem => hx (mem_of_mem_removeEventListener _ _ _ _ hmem)

/-- Every (action, callback) pair recorded in the walked list is absent from
    the element after the removal pass. -/
lemma foldl_remove_removes (l : List (String × RegEntry)) (e : EventListenerElement)
    (p : String × RegEntry) (hp : p ∈ l) :
    (eventKeyStr p.2.action, p.2.callback) ∉ (l.foldl
      (fun e p => e.removeEventListener (eventKeyStr p.2.action) p.2.callback) e).listeners := by
  induction l generalizing e with
  | nil => cases hp
  | cons q t ih =>
      rcases List.mem_cons.1 hp with hq | ht
      · subst hq
        exact foldl_remove_preserves t _ _ (notMem_removeEventListener _ _ _)
      · exact ih _ ht


/-- Looking up a key in a list filtered on that key being different fails. -/
lemma lookup_filter_self {β : Type} (l : List (String × β)) (key : String) :
    List.lookup key (l.filter fun p => decide (p.1 ≠ key)) = none := by
  induction l with
  | nil => rfl
  | cons q t ih =>
      by_cases hq : q.1 = key
      · simpa [List.filter, hq] using ih
      · have : (key == q.1) = false := by
          simpa using fun h => hq h.symm
        simpa [List.filter, hq, List.lookup, this] using ih

/-- After removing (k, c), dispatching an event of type k never reaches c. -/
lemma dispatch_remove_count (e : EventListenerElement) (k : String) (c : Callback) :
    List.count c ((e.removeEventListener k c).dispatchEvent k) = 0 := by
  rw [List.count_eq_zero]
  intro hc
  obtain ⟨x, hx, hx2⟩ := List.mem_map.1 hc
  have h1 := List.mem_filter.1 hx
  have hne : x ≠ (k, c) := by simpa using (List.mem_filter.1 h1.1).2
  have hk : x.1 = k := by simpa using h1.2
  exact hne (Prod.ext hk hx2)

/-- In a duplicate-free list, an element that occurs is counted once by the
    equality predicate. -/
lemma countP_eq_one_of_nodup_mem {α : Type} [DecidableEq α] (l : List α) (a : α)
    (h : l.Nodup) (hm : a ∈ l) :
    List.countP (fun x => decide (x = a)) l = 1 := by
  induction l with
  | nil => cases hm
  | cons b t ih =>
      rw [List.countP_cons]
      rcases List.mem_cons.1 hm with hb | ht
      · subst hb
        have hzero : List.countP (fun x => decide (x = a)) t = 0 := by
          rw [List.countP_eq_zero]
          intro x hx
          simp only [decide_eq_true_eq]
          intro he
          exact (List.nodup_cons.1 h).1 (he ▸ hx)
        simp [hzero]
      · have hba : ¬(b = a) := fun he => (List.nodup_cons.1 h).1 (he ▸ ht)
        have hone := ih (List.nodup_cons.1 h).2 ht
        simp [hone, hba]

/-- A dispatch of type k reaches c once per occurrence of the registration
    (k, c) in the listener list. -/
lemma dispatch_count_eq_pair_count (l : List (String × Callback)) (k : String) (c : Callback) :
    List.count c ((l.filter fun p => decide (p.1 = k)).map (·.2)) =
      List.countP (fun p => decide (p = (k, c))) l := by
  induction l with
  | nil => rfl
  | cons q t ih =>
      obtain ⟨q1, q2⟩ := q
      by_cases hk : q1 = k
      · subst hk
        by_cases hc : q2 = c
        · subst hc
          simp [List.filter_cons, List.countP_cons, List.count_cons, ih]
        · have h1 : (c == q2) = false := by simpa using fun he => hc he.symm
          have h2 : (decide ((q1, q2) = (q1, c))) = false := by simp [hc]
          simp [List.filter_cons, List.countP_cons, List.count_cons, h1, h2, ih]
      · have h3 : (decide ((q1, q2).1 = k)) = false := by simpa using hk
        have h4 : (decide ((q1, q2) = (k, c))) = false := by simp [hk]
        simp [List.filter_cons, List.countP_cons, h3, h4, ih]

/-- An element with no duplicate registrations still has none after
    addEventListener (the DOM ignores a duplicate (type, callback) pair). -/
lemma addEventListener_nodup (e : EventListenerElement) (k : String) (c : Callback)
    (h : e.listeners.Nodup) : (e.addEventListener k c).listeners.Nodup := by
  unfold EventListenerElement.addEventListener
  by_cases hm : (k, c) ∈ e.listeners
  · rw [if_pos hm]; exact h
  · rw [if_neg hm]
    exact h.append (List.nodup_singleton _)
      fun a ha hb => hm (List.mem_singleton.1 hb ▸ ha)

/-- On an element with no duplicate registrations, a dispatch of type k
    reaches c exactly once after addEventListener k c — whether c was
    already registered for k (the DOM dedupes) or is fresh (appended). -/
lemma dispatch_add_count (e : EventListenerElement) (k : String) (c : Callback)
    (h : e.listeners.Nodup) :
    List.count c ((e.addEventListener k c).dispatchEvent k) = 1 := by
  unfold EventListenerElement.addEventListener
  by_cases hm : (k, c) ∈ e.listeners
  · rw [if_pos hm]
    unfold EventListenerElement.dispatchEvent
    rw [dispatch_count_eq_pair_count]
    exact countP_eq_one_of_nodup_mem _ _ h hm
  · rw [if_neg hm]
    unfold EventListenerElement.dispatchEvent
    show List.count c (((e.listeners ++ [(k, c)]).filter fun p => decide (p.1 = k)).map (·.2)) = 1
    rw [dispatch_count_eq_pair_count, List.countP_append]
    have hzero : List.countP (fun p => decide (p = (k, c))) e.listeners = 0 := by
      rw [List.countP_eq_zero]
      intro x hx
      simp only [decide_eq_true_eq]
      intro he
      exact hm (he ▸ hx)
    simp [hzero]

end ListenerLemmas

/-- C1: reconnect removes every listener recorded in the registry from the
    event-relay element, installs a fresh empty registry and element, and
    opens a new connection whose URL string comes from the current
    websocketConfig; afterwards the registry holds no listeners and no
    previously registered callback receives dispatched events. -/
theorem reconnect_spec (s : WrapperState) :
    (reconnect s).listenerRegistry = ListenerRegistry.new ∧
    (reconnect s).eventListenerElement = EventListenerElement.new ∧
    (∀ ty, (reconnect s).eventListenerElement.dispatchEvent ty = []) ∧
    (reconnect s).websocket.urlString =
      s.websocketConfig.url ++ "?" ++ s.websocketConfig.queryStringParameters ∧
    (reconnect s).websocket.readyState = wsCONNECTING ∧
    ∀ p ∈ s.listenerRegistry.listeners,
      (eventKeyStr p.2.action, p.2.callback) ∉
        (removeAllEventListeners s.listenerRegistry s.eventListenerElement).listeners := by
  refine ⟨rfl, rfl, fun ty => rfl, rfl, rfl, fun p hp => ?_⟩
  exact foldl_remove_removes _ _ _ hp

/-- Witness for reconnect_spec at a wrapper holding one registered listener. -/
theorem reconnect_spec_witness :
    (let w := (addListener openWrapper EventKey.message 5 "r1").1
     (reconnect w).listenerRegistry = ListenerRegistry.new ∧
     (reconnect w).eventListenerElement = EventListenerElement.new ∧
     (∀ ty, (reconnect w).eventListenerElement.dispatchEvent ty = []) ∧
     (reconnect w).websocket.urlString =
        w.websocketConfig.url ++ "?" ++ w.websocketConfig.queryStringParameters ∧
     (reconnect w).websocket.readyState = wsCONNECTING ∧
     ("message", 5) ∉
        (removeAllEventListeners w.listenerRegistry w.eventListenerElement).listeners) := by
  have h := reconnect_spec (addListener openWrapper EventKey.message 5 "r1").1
  exact ⟨h.1, h.2.1, h.2.2.1, h.2.2.2.1, h.2.2.2.2.1,
    h.2.2.2.2.2 ("listener-r1", ⟨EventKey.message, 5⟩) (by decide)⟩

/-- C3: removeListener on a registered ID returns true, deletes the registry
    entry, and detaches the callback so dispatches of its action no longer
    reach it; on an unknown ID it returns false and changes nothing. -/
theorem removeListener_spec (s : WrapperState) (listenerID : String) :
    (s.listenerRegistry.get listenerID = none →
      removeListener s listenerID = (s, false)) ∧
    (∀ ent, s.listenerRegistry.get listenerID = some ent →
      (removeListener s listenerID).2 = true ∧
      (removeListener s listenerID).1.listenerRegistry.get listenerID = none ∧
      List.count ent.callback
        ((removeListener s listenerID).1.eventListenerElement.dispatchEvent
          (eventKeyStr ent.action)) = 0) := by
  constructor
  · intro h
    unfold removeListener
    rw [h]
  · intro ent h
    have hne : eventKeyStr ent.action ≠ "" := by
      cases ent.action <;> decide
    have hr : removeListener s listenerID =
        ({ s with
            eventListenerElement :=
              s.eventListenerElement.removeEventListener (eventKeyStr ent.action) ent.callback
            listenerRegistry :=
              ⟨s.listenerRegistry.listeners.filter fun p => decide (p.1 ≠ listenerID)⟩ },
         true) := by
      unfold removeListener
      rw [h]
      simp only [if_neg hne]
      unfold ListenerRegistry.delete
      rw [ListenerRegistry.get] at h ⊢
      rw [h]
      rfl
    rw [hr]
    exact ⟨rfl, lookup_filter_self _ _, dispatch_remove_count _ _ _⟩

/-- Witness for removeListener_spec: a registered ID (true, entry gone,
    callback detached) and an unknown ID (false, state unchanged). -/
theorem removeListener_spec_witness :
    (let w := (addListener openWrapper EventKey.message 5 "r1").1
     (removeListener w "listener-r1").2 = true ∧
     (removeListener w "listener-r1").1.listenerRegistry.get "listener-r1" = none ∧
     List.count 5
        ((removeListener w "listener-r1").1.eventListenerElement.dispatchEvent "message") = 0 ∧
     removeListener w "missing" = (w, false)) := by
  have h := removeListener_spec (addListener openWrapper EventKey.message 5 "r1").1 "listener-r1"
  have h2 := removeListener_spec (addListener openWrapper EventKey.message 5 "r1").1 "missing"
  have hp := h.2 ⟨EventKey.message, 5⟩ (by decide)
  exact ⟨hp.1, hp.2.1, hp.2.2, h2.1 (by decide)⟩

/-- C5 counterexample: two addListener calls on the same wrapper for which
    Math.random yields the same suffix return the SAME listener ID, refuting
    unconditional distinctness. -/
theorem addListener_same_id_cex :
    (addListener openWrapper EventKey.message 7 "abc").2 =
      (addListener (addListener openWrapper EventKey.message 7 "abc").1
        EventKey.connect 9 "abc").2 := rfl

/-- C5 amended: two addListener calls return distinct IDs whenever the two
    Math.random suffixes differ; each registered callback is reached exactly
    once by every dispatched event of its action — also when the same
    (action, callback) pair is registered again, since the relay element
    ignores the duplicate registration.  The hypothesis is the element's
    invariant (no duplicate registrations), which holds at construction
    (empty list) and is preserved by every registration. -/
theorem addListener_spec (s : WrapperState) (a1 a2 : EventKey) (cb1 cb2 : Callback)
    (r1 r2 : String)
    (hinv : s.eventListenerElement.listeners.Nodup) :
    (r1 ≠ r2 →
      (addListener s a1 cb1 r1).2 ≠
        (addListener (addListener s a1 cb1 r1).1 a2 cb2 r2).2) ∧
    List.count cb1
      ((addListener s a1 cb1 r1).1.eventListenerElement.dispatchEvent (eventKeyStr a1)) = 1 ∧
    (addListener s a1 cb1 r1).1.eventListenerElement.listeners.Nodup := by
  refine ⟨?_, ?_, ?_⟩
  · intro hr hc
    apply hr
    have hc2 : ("listener-" ++ r1 : String) = "listener-" ++ r2 := hc
    have hd := congrArg String.data hc2
    rw [String.data_append, String.data_append] at hd
    exact String.ext (List.append_cancel_left hd)
  · exact dispatch_add_count _ _ _ hinv
  · exact addEventListener_nodup _ _ _ hinv

/-- Witness for addListener_spec at a wrapper that ALREADY holds the
    (message, 7) registration: re-registering the same pair still reaches
    the callback exactly once, and distinct suffixes give distinct IDs. -/
theorem addListener_spec_witness :
    (let w := (addListener openWrapper EventKey.message 7 "r0").1
     ("r1" ≠ "r2" →
        (addListener w EventKey.message 7 "r1").2 ≠
          (addListener (addListener w EventKey.message 7 "r1").1
            EventKey.connect 9 "r2").2) ∧
     List.count 7
        ((addListener w EventKey.message 7 "r1").1.eventListenerElement.dispatchEvent
          (eventKeyStr EventKey.message)) = 1 ∧
     (addListener w EventKey.message 7 "r1").1.eventListenerElement.listeners.Nodup) :=
  addListener_spec (addListener openWrapper EventKey.message 7 "r0").1
    EventKey.message EventKey.connect 7 9 "r1" "r2" (by decide)

/-- C2: for each valid configType, updateConfig stores the field-wise merge
    (present fields of newConfig override, absent fields keep their prior
    values) and returns exactly the stored merged configuration; for each of
    the three configTypes, when triggerReconnect is set the
    teardown-and-reconnect is performed with the already-merged
    configuration in place: the registry is reset and the new connection's
    URL is built from the post-merge websocketConfig (so a merged
    url/queryStringParameters is used for the new connection). -/
theorem updateConfig_merge (s : WrapperState) (nc : PartialConfig) (tr : Bool) :
    ((∀ u, nc.url = some u →
        (updateConfig s "websocket" nc tr).1.websocketConfig.url = u) ∧
     (nc.url = none →
        (updateConfig s "websocket" nc tr).1.websocketConfig.url = s.websocketConfig.url) ∧
     (∀ q, nc.queryStringParameters = some q →
        (updateConfig s "websocket" nc tr).1.websocketConfig.queryStringParameters = q) ∧
     (nc.queryStringParameters = none →
        (updateConfig s "websocket" nc tr).1.websocketConfig.queryStringParameters =
          s.websocketConfig.queryStringParameters) ∧
     (updateConfig s "websocket" nc tr).2.1 =
        some (UpdatedConfig.websocket (updateConfig s "websocket" nc tr).1.websocketConfig) ∧
     (tr = true →
        (updateConfig s "websocket" nc tr).1.websocket.urlString =
          (updateConfig s "websocket" nc tr).1.websocketConfig.url ++ "?" ++
            (updateConfig s "websocket" nc tr).1.websocketConfig.queryStringParameters ∧
        (updateConfig s "websocket" nc tr).1.listenerRegistry = ListenerRegistry.new)) ∧
    ((∀ b, nc.shouldSendKeepAlive = some b →
        (updateConfig s "keepAlive" nc tr).1.keepAliveConfig.shouldSendKeepAlive = b) ∧
     (nc.shouldSendKeepAlive = none →
        (updateConfig s "keepAlive" nc tr).1.keepAliveConfig.shouldSendKeepAlive =
          s.keepAliveConfig.shouldSendKeepAlive) ∧
     (∀ m, nc.keepAliveIntervalTimeMs = some m →
        (updateConfig s "keepAlive" nc tr).1.keepAliveConfig.keepAliveIntervalTimeMs = m) ∧
     (nc.keepAliveIntervalTimeMs = none →
        (updateConfig s "keepAlive" nc tr).1.keepAliveConfig.keepAliveIntervalTimeMs =
          s.keepAliveConfig.keepAliveIntervalTimeMs) ∧
     (updateConfig s "keepAlive" nc tr).2.1 =
        some (UpdatedConfig.keepAlive (updateConfig s "keepAlive" nc tr).1.keepAliveConfig) ∧
     (tr = true →
        (updateConfig s "keepAlive" nc tr).1.websocket.urlString =
          (updateConfig s "keepAlive" nc tr).1.websocketConfig.url ++ "?" ++
            (updateConfig s "keepAlive" nc tr).1.websocketConfig.queryStringParameters ∧
        (updateConfig s "keepAlive" nc tr).1.listenerRegistry = ListenerRegistry.new)) ∧
    ((∀ b, nc.reconnectOnDisconnect = some b →
        (updateConfig s "reconnection" nc tr).1.reconnectionConfig.reconnectOnDisconnect = b) ∧
     (nc.reconnectOnDisconnect = none →
        (updateConfig s "reconnection" nc tr).1.reconnectionConfig.reconnectOnDisconnect =
          s.reconnectionConfig.reconnectOnDisconnect) ∧
     (∀ m, nc.reconnectionTimeoutTimeMs = some m →
        (updateConfig s "reconnection" nc tr).1.reconnectionConfig.reconnectionTimeoutTimeMs
          = m) ∧
     (nc.reconnectionTimeoutTimeMs = none →
        (updateConfig s "reconnection" nc tr).1.reconnectionConfig.reconnectionTimeoutTimeMs
          = s.reconnectionConfig.reconnectionTimeoutTimeMs) ∧
     (updateConfig s "reconnection" nc tr).2.1 =
        some (UpdatedConfig.reconnection
          (updateConfig s "reconnection" nc tr).1.reconnectionConfig) ∧
     (tr = true →
        (updateConfig s "reconnection" nc tr).1.websocket.urlString =
          (updateConfig s "reconnection" nc tr).1.websocketConfig.url ++ "?" ++
            (updateConfig s "reconnection" nc tr).1.websocketConfig.queryStringParameters ∧
        (updateConfig s "reconnection" nc tr).1.listenerRegistry = ListenerRegistry.new)) := by
  have hw : updateConfig s "websocket" nc tr =
      (if tr then
        reconnect { s with websocketConfig :=
          ⟨nc.url.getD s.websocketConfig.url,
           nc.queryStringParameters.getD s.websocketConfig.queryStringParameters⟩ }
       else { s with websocketConfig :=
          ⟨nc.url.getD s.websocketConfig.url,
           nc.queryStringParameters.getD s.websocketConfig.queryStringParameters⟩ },
       some (UpdatedConfig.websocket
          ⟨nc.url.getD s.websocketConfig.url,
           nc.queryStringParameters.getD s.websocketConfig.queryStringParameters⟩),
       []) := by
    unfold updateConfig
    rw [if_pos rfl]
    cases tr <;> rfl
  have hk : updateConfig s "keepAlive" nc tr =
      (if tr then
        reconnect { s with keepAliveConfig :=
          ⟨nc.shouldSendKeepAlive.getD s.keepAliveConfig.shouldSendKeepAlive,
           nc.keepAliveIntervalTimeMs.getD s.keepAliveConfig.keepAliveIntervalTimeMs,
           s.keepAliveConfig.keepAliveInterval⟩ }
       else { s with keepAliveConfig :=
          ⟨nc.shouldSendKeepAlive.getD s.keepAliveConfig.shouldSendKeepAlive,
           nc.keepAliveIntervalTimeMs.getD s.keepAliveConfig.keepAliveIntervalTimeMs,
           s.keepAliveConfig.keepAliveInterval⟩ },
       some (UpdatedConfig.keepAlive
          ⟨nc.shouldSendKeepAlive.getD s.keepAliveConfig.shouldSendKeepAlive,
           nc.keepAliveIntervalTimeMs.getD s.keepAliveConfig.keepAliveIntervalTimeMs,
           s.keepAliveConfig.keepAliveInterval⟩),
       []) := by
    unfold updateConfig
    rw [if_neg (show ¬("keepAlive" : String) = "websocket" by decide), if_pos rfl]
    cases tr <;> rfl
  have hr : updateConfig s "reconnection" nc tr =
      (if tr then
        reconnect { s with reconnectionConfig :=
          ⟨nc.reconnectOnDisconnect.getD s.reconnectionConfig.reconnectOnDisconnect,
           nc.reconnectionTimeoutTimeMs.getD s.reconnectionConfig.reconnectionTimeoutTimeMs⟩ }
       else { s with reconnectionConfig :=
          ⟨nc.reconnectOnDisconnect.getD s.reconnectionConfig.reconnectOnDisconnect,
           nc.reconnectionTimeoutTimeMs.getD s.reconnectionConfig.reconnectionTimeoutTimeMs⟩ },
       some (UpdatedConfig.reconnection
          ⟨nc.reconnectOnDisconnect.getD s.reconnectionConfig.reconnectOnDisconnect,
           nc.reconnectionTimeoutTimeMs.getD s.reconnectionConfig.reconnectionTimeoutTimeMs⟩),
       []) := by
    unfold updateConfig
    rw [if_neg (show ¬("reconnection" : String) = "websocket" by decide),
      if_neg (show ¬("reconnection" : String) = "keepAlive" by decide), if_pos rfl]
    cases tr <;> rfl
  refine ⟨⟨?_, ?_, ?_, ?_, ?_, ?_⟩, ⟨?_, ?_, ?_, ?_, ?_, ?_⟩, ⟨?_, ?_, ?_, ?_, ?_, ?_⟩⟩
  · intro u h; rw [hw]; cases tr <;> simp [reconnect, h]
  · intro h; rw [hw]; cases tr <;> simp [reconnect, h]
  · intro q h; rw [hw]; cases tr <;> simp [reconnect, h]
  · intro h; rw [hw]; cases tr <;> simp [reconnect, h]
  · rw [hw]; cases tr <;> rfl
  · intro htr; subst htr; rw [hw]; exact ⟨rfl, rfl⟩
  · intro b h; rw [hk]; cases tr <;> simp [reconnect, h]
  · intro h; rw [hk]; cases tr <;> simp [reconnect, h]
  · intro m h; rw [hk]; cases tr <;> simp [reconnect, h]
  · intro h; rw [hk]; cases tr <;> simp [reconnect, h]
  · rw [hk]; cases tr <;> rfl
  · intro htr; subst htr; rw [hk]; exact ⟨rfl, rfl⟩
  · intro b h; rw [hr]; cases tr <;> simp [reconnect, h]
  · intro h; rw [hr]; cases tr <;> simp [reconnect, h]
  · intro m h; rw [hr]; cases tr <;> simp [reconnect, h]
  · intro h; rw [hr]; cases tr <;> simp [reconnect, h]
  · rw [hr]; cases tr <;> rfl
  · intro htr; subst htr; rw [hr]; exact ⟨rfl, rfl⟩

/-- Witness for updateConfig_merge: a partial update overriding the url,
    shouldSendKeepAlive and reconnectionTimeoutTimeMs with triggerReconnect
    set; untouched fields keep their prior values, the reconnect URL is
    built from the merged websocketConfig, and the keepAlive and
    reconnection branches also tear down and reconnect. -/
theorem updateConfig_merge_witness :
    (let nc : PartialConfig := ⟨some "ws://new", none, some true, none, none, some 750⟩
     (updateConfig openWrapper "websocket" nc true).1.websocketConfig.url = "ws://new" ∧
     (updateConfig openWrapper "websocket" nc true).1.websocketConfig.queryStringParameters =
        openWrapper.websocketConfig.queryStringParameters ∧
     ((updateConfig openWrapper "websocket" nc true).1.websocket.urlString =
        (updateConfig openWrapper "websocket" nc true).1.websocketConfig.url ++ "?" ++
          (updateConfig openWrapper "websocket" nc true).1.websocketConfig.queryStringParameters ∧
      (updateConfig openWrapper "websocket" nc true).1.listenerRegistry =
        ListenerRegistry.new) ∧
     (updateConfig openWrapper "keepAlive" nc true).1.keepAliveConfig.shouldSendKeepAlive =
        true ∧
     ((updateConfig openWrapper "keepAlive" nc true).1.websocket.urlString =
        (updateConfig openWrapper "keepAlive" nc true).1.websocketConfig.url ++ "?" ++
          (updateConfig openWrapper "keepAlive" nc true).1.websocketConfig.queryStringParameters ∧
      (updateConfig openWrapper "keepAlive" nc true).1.listenerRegistry =
        ListenerRegistry.new) ∧
     (updateConfig openWrapper "reconnection" nc
        true).1.reconnectionConfig.reconnectionTimeoutTimeMs = 750 ∧
     ((updateConfig openWrapper "reconnection" nc true).1.websocket.urlString =
        (updateConfig openWrapper "reconnection" nc true).1.websocketConfig.url ++ "?" ++
          (updateConfig openWrapper "reconnection" nc
            true).1.websocketConfig.queryStringParameters ∧
      (updateConfig openWrapper "reconnection" nc true).1.listenerRegistry =
        ListenerRegistry.new)) := by
  have h := updateConfig_merge openWrapper
    ⟨some "ws://new", none, some true, none, none, some 750⟩ true
  exact ⟨h.1.1 "ws://new" rfl, h.1.2.2.2.1 rfl, h.1.2.2.2.2.2 rfl,
    h.2.1.1 true rfl, h.2.1.2.2.2.2.2 rfl,
    h.2.2.2.2.1 750 rfl, h.2.2.2.2.2.2.2 rfl⟩

end WsWrapper
